import Mathlib

/-!
Shallow embedding of `internal/service/deploy/deployment_config.go` from
the terraform-provider-aws repository: the `aws_codedeploy_deployment_config`
resource.  The file models

* the generic attribute representation (Terraform state/config records),
* the typed AWS API shapes (`types.MinimumHealthyHosts`, …),
* the six expand and six flatten functions,
* `findDeploymentConfigByName` and the create / read / delete lifecycle
  callbacks, with the remote API abstracted as explicit parameters,
* the `ConflictsWith` mutual-exclusion metadata of the schema.

Go slices distinguish a nil slice from a non-nil empty slice; this matters
here because `flattenZonalConfig` and `flattenMinimumHealthHostsPerZone`
return `nil` on absent input while the other flatten functions return
`make([]map[string]interface{}, 0)`.  A `GoSlice α` is `Option (List α)`:
`none` is Go's nil slice, `some l` a non-nil slice with elements `l`.
-/

namespace DeployConfig

/-- Go's `int32(n)` conversion on an arbitrary integer (two's-complement wrap). -/
def toInt32 (n : Int) : Int := (n + 2 ^ 31) % 2 ^ 32 - 2 ^ 31

/-- Go's `int64(n)` conversion (two's-complement wrap). -/
def toInt64 (n : Int) : Int := (n + 2 ^ 63) % 2 ^ 64 - 2 ^ 63

/-- `n` is representable as a Go `int32`. -/
abbrev inInt32 (n : Int) : Prop := -(2 ^ 31) ≤ n ∧ n < 2 ^ 31

/-- `n` is representable as a Go `int64`. -/
abbrev inInt64 (n : Int) : Prop := -(2 ^ 63) ≤ n ∧ n < 2 ^ 63

theorem toInt32_eq_self {n : Int} (h : inInt32 n) : toInt32 n = n := by
  unfold toInt32
  have h0 : (0 : Int) ≤ n + 2 ^ 31 := by omega
  have h1 : n + 2 ^ 31 < 2 ^ 32 := by omega
  rw [Int.emod_eq_of_lt h0 h1]
  omega

theorem toInt64_eq_self {n : Int} (h : inInt64 n) : toInt64 n = n := by
  unfold toInt64
  have h0 : (0 : Int) ≤ n + 2 ^ 63 := by omega
  have h1 : n + 2 ^ 63 < 2 ^ 64 := by omega
  rw [Int.emod_eq_of_lt h0 h1]
  omega

/-- A Go slice: `none` is the nil slice, `some l` a non-nil slice. -/
abbrev GoSlice (α : Type) := Option (List α)

/-- `d.Set` on a TypeList attribute stores nil and the empty slice identically:
both become the absent (empty) list.  This is the normalisation a flattened
value undergoes when written into state and later read back by `GetOk`. -/
def setList {α : Type} : GoSlice α → List α
  | none => []
  | some l => l

/-! ### Generic attribute records (Terraform config/state side)

Field names follow the schema attribute names in `resourceDeploymentConfig`.
All integers are already-normalised Go `int` values, all sub-blocks are
`TypeList` with `MaxItems: 1`. -/

/-- One element of the `minimum_healthy_hosts` block (schema lines 51-71). -/
structure MHHRecord where
  type : String
  value : Int
  deriving DecidableEq, Repr

/-- One element of a `time_based_canary` or `time_based_linear` block
(schema lines 79-120); both have the same `{interval, percentage}` shape. -/
structure TimeRecord where
  interval : Int
  percentage : Int
  deriving DecidableEq, Repr

/-- One element of the `traffic_routing_config` block, normalised state side. -/
structure TRCRecord where
  type : String
  time_based_canary : List TimeRecord
  time_based_linear : List TimeRecord
  deriving DecidableEq, Repr

/-- One element of the `minimum_healthy_hosts_per_zone` block. -/
structure MHHPZRecord where
  type : String
  value : Int
  deriving DecidableEq, Repr

/-- One element of the `zonal_config` block, normalised state side. -/
structure ZCRecord where
  first_zone_monitor_duration_in_seconds : Int
  minimum_healthy_hosts_per_zone : List MHHPZRecord
  monitor_duration_in_seconds : Int
  deriving DecidableEq, Repr

/-! ### Typed AWS API shapes (`types` package)

Enum-typed fields are carried as their string values; `*int64` pointer
fields are `Option Int`. -/

/-- `types.MinimumHealthyHosts`: `Type` enum and `Value int32`. -/
structure MinimumHealthyHosts where
  type_ : String
  Value : Int
  deriving DecidableEq, Repr

/-- `types.TimeBasedCanary`. -/
structure TimeBasedCanary where
  CanaryInterval : Int
  CanaryPercentage : Int
  deriving DecidableEq, Repr

/-- `types.TimeBasedLinear`. -/
structure TimeBasedLinear where
  LinearInterval : Int
  LinearPercentage : Int
  deriving DecidableEq, Repr

/-- `types.TrafficRoutingConfig`: enum `Type` plus two optional pointers. -/
structure TrafficRoutingConfig where
  type_ : String
  TimeBasedCanary : Option TimeBasedCanary
  TimeBasedLinear : Option TimeBasedLinear
  deriving DecidableEq, Repr

/-- `types.MinimumHealthyHostsPerZone`. -/
structure MinimumHealthyHostsPerZone where
  type_ : String
  Value : Int
  deriving DecidableEq, Repr

/-- `types.ZonalConfig`: both duration fields are `*int64` pointers, hence
`Option Int`; `MinimumHealthyHostsPerZone` is a struct pointer. -/
structure ZonalConfig where
  FirstZoneMonitorDurationInSeconds : Option Int
  MinimumHealthyHostsPerZone : Option MinimumHealthyHostsPerZone
  MonitorDurationInSeconds : Option Int
  deriving DecidableEq, Repr

/-! ### Expand functions (source lines 272-360)

Each expand function reads its block from the resource data.  `d.GetOk`
on a TypeList attribute reports false exactly on the empty list, so the
absent case is the `[]` case; a present block takes element 0 (MaxItems 1
guarantees at most one element).  Map lookups such as `config["type"]`
always find their key in a schema-normalised element map, so the `ok`
guards in the source are always taken for present blocks. -/

/-- `expandMinimumHealthyHosts` (lines 272-285). -/
def expandMinimumHealthyHosts : List MHHRecord → Option MinimumHealthyHosts
  | [] => none
  | h :: _ => some { type_ := h.type, Value := toInt32 h.value }

/-- `expandTimeBasedCanary` (lines 310-319). -/
def expandTimeBasedCanary (config : TimeRecord) : TimeBasedCanary :=
  { CanaryInterval := toInt32 config.interval
    CanaryPercentage := toInt32 config.percentage }

/-- `expandTimeBasedLinear` (lines 321-330). -/
def expandTimeBasedLinear (config : TimeRecord) : TimeBasedLinear :=
  { LinearInterval := toInt32 config.interval
    LinearPercentage := toInt32 config.percentage }

/-- `expandTrafficRoutingConfig` (lines 287-308): sub-blocks are expanded
only when their list is non-empty; otherwise the pointer stays nil. -/
def expandTrafficRoutingConfig : List TRCRecord → Option TrafficRoutingConfig
  | [] => none
  | c :: _ =>
    some { type_ := c.type
           TimeBasedCanary :=
             match c.time_based_canary with
             | [] => none
             | r :: _ => some (expandTimeBasedCanary r)
           TimeBasedLinear :=
             match c.time_based_linear with
             | [] => none
             | r :: _ => some (expandTimeBasedLinear r) }

/-- `expandMinimumHealthyHostsPerZone` (lines 353-360). -/
def expandMinimumHealthyHostsPerZone (config : MHHPZRecord) : MinimumHealthyHostsPerZone :=
  { type_ := config.type, Value := toInt32 config.value }

/-- `expandZonalConfig` (lines 332-351): the two duration map entries are
`int`-typed in a normalised element map, so their `.(int)` assertions
succeed and both pointer fields are always populated (`aws.Int64`). -/
def expandZonalConfig : List ZCRecord → Option ZonalConfig
  | [] => none
  | c :: _ =>
    some { FirstZoneMonitorDurationInSeconds :=
             some (toInt64 c.first_zone_monitor_duration_in_seconds)
           MinimumHealthyHostsPerZone :=
             match c.minimum_healthy_hosts_per_zone with
             | [] => none
             | r :: _ => some (expandMinimumHealthyHostsPerZone r)
           MonitorDurationInSeconds :=
             some (toInt64 c.monitor_duration_in_seconds) }

/-! ### Flatten functions (source lines 362-444)

The non-zonal flatten functions start from `make([]map[string]interface{}, 0)`
and return that non-nil empty slice on nil input (`GoSlice` value `some []`);
`flattenZonalConfig` and `flattenMinimumHealthHostsPerZone` instead
`return nil` on nil input (`GoSlice` value `none`). -/

/-- `flattenMinimumHealthHosts` (lines 362-374). -/
def flattenMinimumHealthHosts : Option MinimumHealthyHosts → GoSlice MHHRecord
  | none => some []
  | some hosts => some [{ type := hosts.type_, value := hosts.Value }]

/-- `flattenTimeBasedCanary` (lines 391-402). -/
def flattenTimeBasedCanary : Option TimeBasedCanary → GoSlice TimeRecord
  | none => some []
  | some canary =>
    some [{ interval := canary.CanaryInterval, percentage := canary.CanaryPercentage }]

/-- `flattenTimeBasedLinear` (lines 404-415). -/
def flattenTimeBasedLinear : Option TimeBasedLinear → GoSlice TimeRecord
  | none => some []
  | some linear =>
    some [{ interval := linear.LinearInterval, percentage := linear.LinearPercentage }]

/-- A flattened `traffic_routing_config` element: its sub-block entries are
the raw `[]map[string]interface{}` results of the sub-flattens. -/
structure TRCRecordF where
  type : String
  time_based_canary : GoSlice TimeRecord
  time_based_linear : GoSlice TimeRecord
  deriving DecidableEq, Repr

/-- `flattenTrafficRoutingConfig` (lines 376-389). -/
def flattenTrafficRoutingConfig : Option TrafficRoutingConfig → GoSlice TRCRecordF
  | none => some []
  | some config =>
    some [{ type := config.type_
            time_based_canary := flattenTimeBasedCanary config.TimeBasedCanary
            time_based_linear := flattenTimeBasedLinear config.TimeBasedLinear }]

/-- `flattenMinimumHealthHostsPerZone` (lines 432-444): guards its pointer
(`if config == nil`) and returns the nil slice on absence. -/
def flattenMinimumHealthHostsPerZone :
    Option MinimumHealthyHostsPerZone → GoSlice MHHPZRecord
  | none => none
  | some config => some [{ type := config.type_, value := config.Value }]

/-- A flattened `zonal_config` element.  The source stores the duration
entries as `aws.Int64(*config.…)`, a fresh `*int64` holding the
dereferenced value; the carried integer is that value. -/
structure ZCRecordF where
  first_zone_monitor_duration_in_seconds : Int
  minimum_healthy_hosts_per_zone : GoSlice MHHPZRecord
  monitor_duration_in_seconds : Int
  deriving DecidableEq, Repr

/-- `flattenZonalConfig` (lines 417-430): returns the nil slice on absence,
and on a present input unconditionally dereferences both `*int64` fields
(`*config.FirstZoneMonitorDurationInSeconds`, `*config.MonitorDurationInSeconds`).
A nil pointer there is a runtime panic, modelled as `Except.error ()`. -/
def flattenZonalConfig : Option ZonalConfig → Except Unit (GoSlice ZCRecordF)
  | none => .ok none
  | some config =>
    match config.FirstZoneMonitorDurationInSeconds, config.MonitorDurationInSeconds with
    | some f, some m =>
      .ok (some [{ first_zone_monitor_duration_in_seconds := f
                   minimum_healthy_hosts_per_zone :=
                     flattenMinimumHealthHostsPerZone config.MinimumHealthyHostsPerZone
                   monitor_duration_in_seconds := m }])
    | _, _ => .error ()

/-! ### State normalisation (`d.Set` on flatten results)

Writing a flattened value into state and reading it back through `GetOk`
collapses the nil/empty-slice distinction and recursively normalises
nested lists. -/

/-- Normalise a flattened `traffic_routing_config` element. -/
def setTRCRecord (r : TRCRecordF) : TRCRecord :=
  { type := r.type
    time_based_canary := setList r.time_based_canary
    time_based_linear := setList r.time_based_linear }

/-- Normalise a flattened `zonal_config` element. -/
def setZCRecord (r : ZCRecordF) : ZCRecord :=
  { first_zone_monitor_duration_in_seconds := r.first_zone_monitor_duration_in_seconds
    minimum_healthy_hosts_per_zone := setList r.minimum_healthy_hosts_per_zone
    monitor_duration_in_seconds := r.monitor_duration_in_seconds }

/-- State stored for `minimum_healthy_hosts` after `d.Set`. -/
def setMHH (s : GoSlice MHHRecord) : List MHHRecord := setList s

/-- State stored for `traffic_routing_config` after `d.Set`. -/
def setTRC (s : GoSlice TRCRecordF) : List TRCRecord := (setList s).map setTRCRecord

/-- State stored for `zonal_config` after `d.Set`. -/
def setZC (s : GoSlice ZCRecordF) : List ZCRecord := (setList s).map setZCRecord

/-! ### Remote API shapes and `findDeploymentConfigByName` (lines 247-270) -/

/-- `types.DeploymentConfigInfo` (the fields the resource reads).  The
string fields `DeploymentConfigId` / `DeploymentConfigName` are `*string`
pointers; `ComputePlatform` is a value-typed enum. -/
structure DeploymentConfigInfo where
  ComputePlatform : String
  DeploymentConfigId : Option String
  DeploymentConfigName : Option String
  MinimumHealthyHosts : Option MinimumHealthyHosts
  TrafficRoutingConfig : Option TrafficRoutingConfig
  ZonalConfig : Option ZonalConfig
  deriving DecidableEq, Repr

/-- An error returned by an SDK call.  `isDoesNotExist` marks the
`*types.DeploymentConfigDoesNotExistException` case tested by
`errs.IsA` in `findDeploymentConfigByName`. -/
structure ApiError where
  isDoesNotExist : Bool
  msg : String
  deriving DecidableEq, Repr

/-- `codedeploy.GetDeploymentConfigOutput`: its payload field is a pointer. -/
structure GetDeploymentConfigOutput where
  DeploymentConfigInfo : Option DeploymentConfigInfo
  deriving DecidableEq, Repr

/-- The errors `findDeploymentConfigByName` can produce: the structured
`retry.NotFoundError` (carrying the original exception as `LastError`),
the `tfresource.NewEmptyResultError` for a nil payload, and any other API
error returned unmodified. -/
inductive FindErr where
  | notFound (lastError : ApiError) : FindErr
  | emptyResult : FindErr
  | api (e : ApiError) : FindErr
  deriving DecidableEq, Repr

/-- `findDeploymentConfigByName` (lines 247-270), with the result of the
`conn.GetDeploymentConfig` network call passed in as the `(output, err)`
pair.  The designated exception becomes a structured not-found error; any
other error is returned as-is; a nil output or nil payload becomes an
empty-result error; otherwise the payload is returned. -/
def findDeploymentConfigByName (output : Option GetDeploymentConfigOutput)
    (err : Option ApiError) : Except FindErr DeploymentConfigInfo :=
  match err with
  | some e => if e.isDoesNotExist then .error (.notFound e) else .error (.api e)
  | none =>
    match output with
    | none => .error .emptyResult
    | some o =>
      match o.DeploymentConfigInfo with
      | none => .error .emptyResult
      | some info => .ok info

/-- Modelled from the spec: `tfresource.NotFound` (the helper package is not
in src/) recognises exactly the structured not-found signal — "a designated
API exception is translated into a structured not-found signal consumed
specially during read". -/
def tfresourceNotFound : FindErr → Bool
  | .notFound _ => true
  | _ => false

/-- Display text of a `FindErr`, used when read wraps it into its
diagnostic message. -/
def FindErr.text : FindErr → String
  | .notFound e => "couldn't find resource (last error: " ++ e.msg ++ ")"
  | .emptyResult => "empty result"
  | .api e => e.msg

/-! ### Lifecycle callbacks (lines 175-245)

The `*schema.ResourceData` handle is modelled as an explicit record of the
schema's attributes plus the identifier; the remote API is abstracted as
explicit parameters (create call error, a get function from names to
results, delete call error). -/

/-- The resource data: identifier (`d.Id()`, `""` when unset) and the
schema attributes in their normalised state representation. -/
structure ProviderState where
  id : String
  compute_platform : String
  deployment_config_id : String
  deployment_config_name : String
  minimum_healthy_hosts : List MHHRecord
  traffic_routing_config : List TRCRecord
  zonal_config : List ZCRecord
  deriving DecidableEq, Repr

/-- Outcome of a lifecycle callback: the resulting resource data, the
error diagnostic if any, and whether a runtime panic occurred (reachable
only through `flattenZonalConfig`'s nil-pointer dereference). -/
structure Outcome where
  state : ProviderState
  error : Option String
  panicked : Bool
  deriving DecidableEq, Repr

/-- `resourceDeploymentConfigRead` (lines 199-229).  `isNew` is
`d.IsNewResource()`; `find` is the result of
`findDeploymentConfigByName(ctx, conn, d.Id())`.  Not-found on a
non-new resource clears the identifier and reports no error; any other
error (including not-found on a new resource) is wrapped with the
operation and identifier; on success every attribute is overwritten from
the fetched object through the flatten functions. -/
def resourceDeploymentConfigRead (isNew : Bool) (st : ProviderState)
    (find : Except FindErr DeploymentConfigInfo) : Outcome :=
  match find with
  | .error e =>
    if !isNew && tfresourceNotFound e then
      { state := { st with id := "" }, error := none, panicked := false }
    else
      { state := st
        error := some ("reading CodeDeploy Deployment Config (" ++ st.id ++ "): " ++ e.text)
        panicked := false }
  | .ok info =>
    match flattenZonalConfig info.ZonalConfig with
    | .error _ => { state := st, error := none, panicked := true }
    | .ok zc =>
      { state :=
          { st with
            compute_platform := info.ComputePlatform
            deployment_config_id := info.DeploymentConfigId.getD ""
            deployment_config_name := info.DeploymentConfigName.getD ""
            minimum_healthy_hosts := setMHH (flattenMinimumHealthHosts info.MinimumHealthyHosts)
            traffic_routing_config := setTRC (flattenTrafficRoutingConfig info.TrafficRoutingConfig)
            zonal_config := setZC zc }
        error := none
        panicked := false }

/-- `codedeploy.CreateDeploymentConfigInput` as built at lines 180-186. -/
structure CreateDeploymentConfigInput where
  ComputePlatform : String
  DeploymentConfigName : String
  MinimumHealthyHosts : Option MinimumHealthyHosts
  TrafficRoutingConfig : Option TrafficRoutingConfig
  ZonalConfig : Option ZonalConfig
  deriving DecidableEq, Repr

/-- The request body create sends, assembled by the expand functions. -/
def createInput (st : ProviderState) : CreateDeploymentConfigInput :=
  { ComputePlatform := st.compute_platform
    DeploymentConfigName := st.deployment_config_name
    MinimumHealthyHosts := expandMinimumHealthyHosts st.minimum_healthy_hosts
    TrafficRoutingConfig := expandTrafficRoutingConfig st.traffic_routing_config
    ZonalConfig := expandZonalConfig st.zonal_config }

/-- Outcome of create: the issued request plus the resulting state/error. -/
structure CreateOutcome where
  request : CreateDeploymentConfigInput
  state : ProviderState
  error : Option String
  panicked : Bool
  deriving DecidableEq, Repr

/-- `resourceDeploymentConfigCreate` (lines 175-197).  `createErr` is the
error of the `conn.CreateDeploymentConfig` call; `get` gives, per name,
the `findDeploymentConfigByName` result the in-create read would obtain.
On create failure the error is reported and `d.SetId` is never reached;
on success the name becomes the identifier and read runs immediately with
`IsNewResource` true. -/
def resourceDeploymentConfigCreate (st : ProviderState) (createErr : Option ApiError)
    (get : String → Except FindErr DeploymentConfigInfo) : CreateOutcome :=
  let name := st.deployment_config_name
  let input := createInput st
  match createErr with
  | some e =>
    { request := input
      state := st
      error := some ("creating CodeDeploy Deployment Config (" ++ name ++ "): " ++ e.msg)
      panicked := false }
  | none =>
    let st1 := { st with id := name }
    let r := resourceDeploymentConfigRead true st1 (get name)
    { request := input, state := r.state, error := r.error, panicked := r.panicked }

/-- Outcome of delete: the names the delete request was issued for, and
the error diagnostic if any. -/
structure DeleteOutcome where
  requests : List String
  error : Option String
  deriving DecidableEq, Repr

/-- `resourceDeploymentConfigDelete` (lines 231-245): one
`DeleteDeploymentConfig` call keyed by `d.Id()`; any error is wrapped
with the identifier and surfaced; success reports nothing. -/
def resourceDeploymentConfigDelete (st : ProviderState)
    (deleteErr : Option ApiError) : DeleteOutcome :=
  { requests := [st.id]
    error :=
      match deleteErr with
      | some e =>
        some ("deleting CodeDeploy Deployment Config (" ++ st.id ++ "): " ++ e.msg)
      | none => none }

/-! ### Schema mutual exclusion (lines 79-120) -/

/-- A schema attribute path together with its `ConflictsWith` metadata. -/
structure AttrConflict where
  path : String
  conflictsWith : List String
  deriving DecidableEq, Repr

/-- The `ConflictsWith` declarations of the two traffic-routing sub-blocks
(schema lines 84 and 105). -/
def trafficRoutingConflicts : List AttrConflict :=
  [ { path := "traffic_routing_config.0.time_based_canary"
      conflictsWith := ["traffic_routing_config.0.time_based_linear"] }
  , { path := "traffic_routing_config.0.time_based_linear"
      conflictsWith := ["traffic_routing_config.0.time_based_canary"] } ]

/-- Modelled from the spec: the host framework's `ConflictsWith` validation
(the SDK is not in src/) accepts a configuration only if no declared
attribute is present together with an attribute it conflicts with, and it
runs during plan validation, before any network call — "configuration
validation must reject it (mutual exclusion) before any network call is
made". `present` says which attribute paths are set in the configuration. -/
def schemaValidateConflicts (conflicts : List AttrConflict)
    (present : String → Bool) : Bool :=
  conflicts.all fun a => !(present a.path && a.conflictsWith.any present)

/-- Which of the two traffic-routing sub-block paths a configuration sets:
a sub-block is present when its list is non-empty. -/
def trcPresentPaths (trc : List TRCRecord) : String → Bool := fun p =>
  match trc with
  | [] => false
  | c :: _ =>
    (p == "traffic_routing_config.0.time_based_canary" && !c.time_based_canary.isEmpty) ||
    (p == "traffic_routing_config.0.time_based_linear" && !c.time_based_linear.isEmpty)

/-! ### Validity of configurations and API objects

A schema-valid configuration has at most one element per block
(`MaxItems: 1`) and integer values representable in the integer width the
expand functions coerce to (`int32` for counts/percentages, `int64` for
durations).  A well-formed API object carries `int32`/`int64` values in
range; a well-formed zonal config additionally has both `*int64` duration
pointers non-nil (the shape the service returns and the shape
`expandZonalConfig` always produces). -/

abbrev validMHHList (l : List MHHRecord) : Prop :=
  l.length ≤ 1 ∧ ∀ r ∈ l, inInt32 r.value

abbrev validTimeList (l : List TimeRecord) : Prop :=
  l.length ≤ 1 ∧ ∀ r ∈ l, inInt32 r.interval ∧ inInt32 r.percentage

abbrev validTRCList (l : List TRCRecord) : Prop :=
  l.length ≤ 1 ∧
    ∀ r ∈ l, validTimeList r.time_based_canary ∧ validTimeList r.time_based_linear

abbrev validMHHPZList (l : List MHHPZRecord) : Prop :=
  l.length ≤ 1 ∧ ∀ r ∈ l, inInt32 r.value

abbrev validZCList (l : List ZCRecord) : Prop :=
  l.length ≤ 1 ∧
    ∀ r ∈ l, inInt64 r.first_zone_monitor_duration_in_seconds ∧
      inInt64 r.monitor_duration_in_seconds ∧
      validMHHPZList r.minimum_healthy_hosts_per_zone

def validMHHOpt : Option MinimumHealthyHosts → Prop
  | none => True
  | some h => inInt32 h.Value

instance : (o : Option MinimumHealthyHosts) → Decidable (validMHHOpt o)
  | none => .isTrue trivial
  | some h => inferInstanceAs (Decidable (inInt32 h.Value))

def validCanaryOpt : Option TimeBasedCanary → Prop
  | none => True
  | some c => inInt32 c.CanaryInterval ∧ inInt32 c.CanaryPercentage

instance : (o : Option TimeBasedCanary) → Decidable (validCanaryOpt o)
  | none => .isTrue trivial
  | some c => inferInstanceAs (Decidable (inInt32 c.CanaryInterval ∧ inInt32 c.CanaryPercentage))

def validLinearOpt : Option TimeBasedLinear → Prop
  | none => True
  | some c => inInt32 c.LinearInterval ∧ inInt32 c.LinearPercentage

instance : (o : Option TimeBasedLinear) → Decidable (validLinearOpt o)
  | none => .isTrue trivial
  | some c => inferInstanceAs (Decidable (inInt32 c.LinearInterval ∧ inInt32 c.LinearPercentage))

def validTRCOpt : Option TrafficRoutingConfig → Prop
  | none => True
  | some c => validCanaryOpt c.TimeBasedCanary ∧ validLinearOpt c.TimeBasedLinear

instance : (o : Option TrafficRoutingConfig) → Decidable (validTRCOpt o)
  | none => .isTrue trivial
  | some c =>
    inferInstanceAs (Decidable (validCanaryOpt c.TimeBasedCanary ∧ validLinearOpt c.TimeBasedLinear))

def validMHHPZOpt : Option MinimumHealthyHostsPerZone → Prop
  | none => True
  | some h => inInt32 h.Value

instance : (o : Option MinimumHealthyHostsPerZone) → Decidable (validMHHPZOpt o)
  | none => .isTrue trivial
  | some h => inferInstanceAs (Decidable (inInt32 h.Value))

/-- A non-nil `*int64` duration whose value is `int64`-representable. -/
def validDurOpt : Option Int → Prop
  | none => False
  | some f => inInt64 f

instance : (o : Option Int) → Decidable (validDurOpt o)
  | none => .isFalse id
  | some f => inferInstanceAs (Decidable (inInt64 f))

def validZCOpt : Option ZonalConfig → Prop
  | none => True
  | some c =>
    validDurOpt c.FirstZoneMonitorDurationInSeconds ∧
      validDurOpt c.MonitorDurationInSeconds ∧
      validMHHPZOpt c.MinimumHealthyHostsPerZone

instance : (o : Option ZonalConfig) → Decidable (validZCOpt o)
  | none => .isTrue trivial
  | some c =>
    inferInstanceAs (Decidable (validDurOpt c.FirstZoneMonitorDurationInSeconds ∧
      validDurOpt c.MonitorDurationInSeconds ∧
      validMHHPZOpt c.MinimumHealthyHostsPerZone))

/-! ### Round-trip lemmas (shared by the round-trip theorem) -/

theorem rt_mhh_state (l : List MHHRecord) (h : validMHHList l) :
    setMHH (flattenMinimumHealthHosts (expandMinimumHealthyHosts l)) = l := by
  match l, h with
  | [], _ => rfl
  | [r], ⟨_, hv⟩ =>
    have hr : inInt32 r.value := hv r (by simp)
    simp [expandMinimumHealthyHosts, flattenMinimumHealthHosts, setMHH, setList,
      toInt32_eq_self hr]
  | r :: r2 :: rest, ⟨hlen, _⟩ => simp at hlen

theorem rt_mhh_api (o : Option MinimumHealthyHosts) (h : validMHHOpt o) :
    expandMinimumHealthyHosts (setMHH (flattenMinimumHealthHosts o)) = o := by
  match o, h with
  | none, _ => rfl
  | some hh, hv =>
    have hr : inInt32 hh.Value := hv
    simp [flattenMinimumHealthHosts, setMHH, setList, expandMinimumHealthyHosts,
      toInt32_eq_self hr]

theorem rt_trc_state (l : List TRCRecord) (h : validTRCList l) :
    setTRC (flattenTrafficRoutingConfig (expandTrafficRoutingConfig l)) = l := by
  match l, h with
  | [], _ => rfl
  | [⟨ct, cc, cl⟩], ⟨_, hv⟩ =>
    obtain ⟨⟨hcclen, hccv⟩, ⟨hcllen, hclv⟩⟩ := hv ⟨ct, cc, cl⟩ (by simp)
    match cc, hcclen, hccv, cl, hcllen, hclv with
    | [], _, _, [], _, _ => rfl
    | [], _, _, [y], _, hy =>
      obtain ⟨hy1, hy2⟩ := hy y (by simp)
      simp [expandTrafficRoutingConfig, flattenTrafficRoutingConfig, flattenTimeBasedCanary,
        expandTimeBasedLinear, flattenTimeBasedLinear, setTRC, setTRCRecord, setList,
        toInt32_eq_self hy1, toInt32_eq_self hy2]
    | [x], _, hx, [], _, _ =>
      obtain ⟨hx1, hx2⟩ := hx x (by simp)
      simp [expandTrafficRoutingConfig, flattenTrafficRoutingConfig, flattenTimeBasedLinear,
        expandTimeBasedCanary, flattenTimeBasedCanary, setTRC, setTRCRecord, setList,
        toInt32_eq_self hx1, toInt32_eq_self hx2]
    | [x], _, hx, [y], _, hy =>
      obtain ⟨hx1, hx2⟩ := hx x (by simp)
      obtain ⟨hy1, hy2⟩ := hy y (by simp)
      simp [expandTrafficRoutingConfig, flattenTrafficRoutingConfig,
        expandTimeBasedCanary, flattenTimeBasedCanary,
        expandTimeBasedLinear, flattenTimeBasedLinear, setTRC, setTRCRecord, setList,
        toInt32_eq_self hx1, toInt32_eq_self hx2, toInt32_eq_self hy1, toInt32_eq_self hy2]
    | _ :: _ :: _, h2, _, _, _, _ => simp at h2
    | _, _, _, _ :: _ :: _, h2, _ => simp at h2
  | c :: c2 :: rest, ⟨hlen, _⟩ => simp at hlen

theorem rt_trc_api (o : Option TrafficRoutingConfig) (h : validTRCOpt o) :
    expandTrafficRoutingConfig (setTRC (flattenTrafficRoutingConfig o)) = o := by
  match o, h with
  | none, _ => rfl
  | some ⟨tt, oc, ol⟩, hv =>
    have hc : validCanaryOpt oc := hv.1
    have hl : validLinearOpt ol := hv.2
    match oc, hc, ol, hl with
    | none, _, none, _ => rfl
    | none, _, some y, hy =>
      simp [flattenTrafficRoutingConfig, flattenTimeBasedCanary, flattenTimeBasedLinear,
        setTRC, setTRCRecord, setList, expandTrafficRoutingConfig,
        expandTimeBasedLinear, toInt32_eq_self hy.1, toInt32_eq_self hy.2]
    | some x, hx, none, _ =>
      simp [flattenTrafficRoutingConfig, flattenTimeBasedCanary, flattenTimeBasedLinear,
        setTRC, setTRCRecord, setList, expandTrafficRoutingConfig,
        expandTimeBasedCanary, toInt32_eq_self hx.1, toInt32_eq_self hx.2]
    | some x, hx, some y, hy =>
      simp [flattenTrafficRoutingConfig, flattenTimeBasedCanary, flattenTimeBasedLinear,
        setTRC, setTRCRecord, setList, expandTrafficRoutingConfig,
        expandTimeBasedCanary, expandTimeBasedLinear,
        toInt32_eq_self hx.1, toInt32_eq_self hx.2, toInt32_eq_self hy.1, toInt32_eq_self hy.2]

theorem rt_zc_state (l : List ZCRecord) (h : validZCList l) :
    (flattenZonalConfig (expandZonalConfig l)).map setZC = Except.ok l := by
  match l, h with
  | [], _ => rfl
  | [⟨cf, cp, cm⟩], ⟨_, hv⟩ =>
    obtain ⟨hf, hm, hplen, hpv⟩ := hv ⟨cf, cp, cm⟩ (by simp)
    match cp, hplen, hpv with
    | [], _, _ =>
      simp [expandZonalConfig, flattenZonalConfig, flattenMinimumHealthHostsPerZone,
        setZC, setZCRecord, setList, toInt64_eq_self hf, toInt64_eq_self hm, Except.map]
    | [p], _, hp =>
      have hp1 : inInt32 p.value := hp p (by simp)
      simp [expandZonalConfig, expandMinimumHealthyHostsPerZone, flattenZonalConfig,
        flattenMinimumHealthHostsPerZone, setZC, setZCRecord, setList,
        toInt64_eq_self hf, toInt64_eq_self hm, toInt32_eq_self hp1, Except.map]
    | _ :: _ :: _, h2, _ => simp at h2
  | c :: c2 :: rest, ⟨hlen, _⟩ => simp at hlen

theorem rt_zc_api (o : Option ZonalConfig) (h : validZCOpt o) :
    (flattenZonalConfig o).map (fun s => expandZonalConfig (setZC s)) = Except.ok o := by
  match o, h with
  | none, _ => rfl
  | some ⟨of, op, om⟩, hv =>
    obtain ⟨h1, h2, h3⟩ := hv
    match of, h1, om, h2 with
    | some f, hf, some m, hm =>
      have hf' : inInt64 f := hf
      have hm' : inInt64 m := hm
      match op, h3 with
      | none, _ =>
        simp [flattenZonalConfig, flattenMinimumHealthHostsPerZone, setZC, setZCRecord,
          setList, expandZonalConfig, toInt64_eq_self hf', toInt64_eq_self hm', Except.map]
      | some p, hp =>
        have hp' : inInt32 p.Value := hp
        simp [flattenZonalConfig, flattenMinimumHealthHostsPerZone, setZC, setZCRecord,
          setList, expandZonalConfig, expandMinimumHealthyHostsPerZone,
          toInt64_eq_self hf', toInt64_eq_self hm', toInt32_eq_self hp', Except.map]
    | none, hbad, _, _ => exact hbad.elim
    | some _, _, none, hbad => exact hbad.elim

/-! ### Sample values used by the witness theorems -/

def sampleMHH : List MHHRecord := [{ type := "FLEET_PERCENT", value := 75 }]

def sampleTRC : List TRCRecord :=
  [{ type := "TimeBasedCanary"
     time_based_canary := [{ interval := 10, percentage := 25 }]
     time_based_linear := [] }]

def sampleZC : List ZCRecord :=
  [{ first_zone_monitor_duration_in_seconds := 300
     minimum_healthy_hosts_per_zone := [{ type := "FLEET_PERCENT_PER_ZONE", value := 50 }]
     monitor_duration_in_seconds := 120 }]

def sampleMHHApi : Option MinimumHealthyHosts := some { type_ := "HOST_COUNT", Value := 3 }

def sampleTRCApi : Option TrafficRoutingConfig :=
  some { type_ := "TimeBasedLinear"
         TimeBasedCanary := none
         TimeBasedLinear := some { LinearInterval := 5, LinearPercentage := 10 } }

def sampleZCApi : Option ZonalConfig :=
  some { FirstZoneMonitorDurationInSeconds := some 60
         MinimumHealthyHostsPerZone := some { type_ := "HOST_COUNT_PER_ZONE", Value := 2 }
         MonitorDurationInSeconds := some 30 }

def sampleState : ProviderState :=
  { id := "cfg-1"
    compute_platform := "Server"
    deployment_config_id := ""
    deployment_config_name := "cfg-1"
    minimum_healthy_hosts := sampleMHH
    traffic_routing_config := []
    zonal_config := [] }

def sampleInfo : DeploymentConfigInfo :=
  { ComputePlatform := "Server"
    DeploymentConfigId := some "d-ABCDEFGH"
    DeploymentConfigName := some "cfg-1"
    MinimumHealthyHosts := sampleMHHApi
    TrafficRoutingConfig := none
    ZonalConfig := none }

/-! ### Claim theorems -/

/-- C1: for every valid configuration, `expand` after `flatten` and
`flatten` after `expand` round-trip field-for-field across the four block
mappings (`minimum_healthy_hosts`, `traffic_routing_config` with its
`time_based_canary`/`time_based_linear` sub-blocks, `zonal_config` with
`minimum_healthy_hosts_per_zone`).  The flatten results are compared after
the `d.Set` normalisation (`setMHH`/`setTRC`/`setZC`), which is where the
documented zonal-config absence asymmetry lives: `flattenZonalConfig`
yields the nil slice on absence while the other flatten functions yield a
non-nil empty slice (proved separately as claim C2), and `d.Set` stores
both as the absent block, so the round-trips hold on both sides of the
asymmetry. -/
theorem C1_expand_flatten_roundtrip
    (lm : List MHHRecord) (lt : List TRCRecord) (lz : List ZCRecord)
    (om : Option MinimumHealthyHosts) (ot : Option TrafficRoutingConfig)
    (oz : Option ZonalConfig)
    (hlm : validMHHList lm) (hlt : validTRCList lt) (hlz : validZCList lz)
    (hom : validMHHOpt om) (hot : validTRCOpt ot) (hoz : validZCOpt oz) :
    setMHH (flattenMinimumHealthHosts (expandMinimumHealthyHosts lm)) = lm ∧
    setTRC (flattenTrafficRoutingConfig (expandTrafficRoutingConfig lt)) = lt ∧
    (flattenZonalConfig (expandZonalConfig lz)).map setZC = Except.ok lz ∧
    expandMinimumHealthyHosts (setMHH (flattenMinimumHealthHosts om)) = om ∧
    expandTrafficRoutingConfig (setTRC (flattenTrafficRoutingConfig ot)) = ot ∧
    (flattenZonalConfig oz).map (fun s => expandZonalConfig (setZC s)) = Except.ok oz :=
  ⟨rt_mhh_state lm hlm, rt_trc_state lt hlt, rt_zc_state lz hlz,
   rt_mhh_api om hom, rt_trc_api ot hot, rt_zc_api oz hoz⟩

/-- Witness for C1: the round-trip theorem applied to concrete valid
inputs (present and absent blocks on both sides). -/
theorem C1_expand_flatten_roundtrip_witness :
    (validMHHList sampleMHH ∧ validTRCList sampleTRC ∧ validZCList sampleZC ∧
      validMHHOpt sampleMHHApi ∧ validTRCOpt sampleTRCApi ∧ validZCOpt sampleZCApi) ∧
    (setMHH (flattenMinimumHealthHosts (expandMinimumHealthyHosts sampleMHH)) = sampleMHH ∧
      setTRC (flattenTrafficRoutingConfig (expandTrafficRoutingConfig sampleTRC)) = sampleTRC ∧
      (flattenZonalConfig (expandZonalConfig sampleZC)).map setZC = Except.ok sampleZC ∧
      expandMinimumHealthyHosts (setMHH (flattenMinimumHealthHosts sampleMHHApi)) = sampleMHHApi ∧
      expandTrafficRoutingConfig (setTRC (flattenTrafficRoutingConfig sampleTRCApi)) = sampleTRCApi ∧
      (flattenZonalConfig sampleZCApi).map (fun s => expandZonalConfig (setZC s)) =
        Except.ok sampleZCApi) :=
  ⟨⟨by decide, by decide, by decide, by decide, by decide, by decide⟩,
   C1_expand_flatten_roundtrip sampleMHH sampleTRC sampleZC sampleMHHApi sampleTRCApi
     sampleZCApi (by decide) (by decide) (by decide) (by decide) (by decide) (by decide)⟩

/-- C2: on absent (nil) input, `flattenMinimumHealthHosts`,
`flattenTrafficRoutingConfig`, `flattenTimeBasedCanary` and
`flattenTimeBasedLinear` all return a non-nil empty slice, while the
zonal-config flatten path — `flattenZonalConfig` and its sub-block helper
`flattenMinimumHealthHostsPerZone` — returns the true absent value, Go's
nil slice; no flatten function reports an error on absence. -/
theorem C2_flatten_absence :
    flattenMinimumHealthHosts none = some [] ∧
    flattenTrafficRoutingConfig none = some [] ∧
    flattenTimeBasedCanary none = some [] ∧
    flattenTimeBasedLinear none = some [] ∧
    flattenZonalConfig none = Except.ok none ∧
    flattenMinimumHealthHostsPerZone none = none :=
  ⟨rfl, rfl, rfl, rfl, rfl, rfl⟩

/-- C9: flattening the present `minimum_healthy_hosts` value
`{type: "FLEET_PERCENT", value: 75}` yields a slice of exactly one record
whose `type` is `"FLEET_PERCENT"` and whose `value` is `75`, unchanged. -/
theorem C9_flatten_mhh_fleet_percent :
    flattenMinimumHealthHosts (some { type_ := "FLEET_PERCENT", Value := 75 }) =
      some [{ type := "FLEET_PERCENT", value := 75 }] :=
  rfl

/-- C3: when the read's lookup reports not-found, a read on an existing
(non-new) resource clears the local identifier and returns no error,
while the first read of a newly created resource surfaces the not-found
condition as a hard error wrapped with the operation and identifier. -/
theorem C3_read_not_found (st : ProviderState) (e : FindErr)
    (h : tfresourceNotFound e = true) :
    resourceDeploymentConfigRead false st (.error e) =
      { state := { st with id := "" }, error := none, panicked := false } ∧
    resourceDeploymentConfigRead true st (.error e) =
      { state := st
        error := some ("reading CodeDeploy Deployment Config (" ++ st.id ++ "): " ++ e.text)
        panicked := false } := by
  constructor
  · simp [resourceDeploymentConfigRead, h]
  · simp [resourceDeploymentConfigRead]

/-- Witness for C3: a concrete not-found error against a concrete state. -/
theorem C3_read_not_found_witness :
    tfresourceNotFound (.notFound { isDoesNotExist := true, msg := "gone" }) = true ∧
    (resourceDeploymentConfigRead false sampleState
        (.error (.notFound { isDoesNotExist := true, msg := "gone" })) =
      { state := { sampleState with id := "" }, error := none, panicked := false } ∧
    resourceDeploymentConfigRead true sampleState
        (.error (.notFound { isDoesNotExist := true, msg := "gone" })) =
      { state := sampleState
        error := some ("reading CodeDeploy Deployment Config (" ++ sampleState.id ++ "): " ++
          (FindErr.notFound { isDoesNotExist := true, msg := "gone" }).text)
        panicked := false }) :=
  ⟨rfl, C3_read_not_found sampleState (.notFound { isDoesNotExist := true, msg := "gone" }) rfl⟩

/-- C4: a successful create with `deployment_config_name` N adopts N as
the local identifier, performs its in-create read by fetching name N (the
outcome depends on the remote lookup only at N), reports no error, and
the read-back state's identifier is N. -/
theorem C4_create_adopts_name (st : ProviderState) (info : DeploymentConfigInfo)
    (get get' : String → Except FindErr DeploymentConfigInfo)
    (hget : get st.deployment_config_name = Except.ok info)
    (hname : info.DeploymentConfigName = some st.deployment_config_name)
    (hflat : ∃ s, flattenZonalConfig info.ZonalConfig = Except.ok s) :
    (resourceDeploymentConfigCreate st none get).error = none ∧
    (resourceDeploymentConfigCreate st none get).panicked = false ∧
    (resourceDeploymentConfigCreate st none get).state.id = st.deployment_config_name ∧
    (resourceDeploymentConfigCreate st none get).state.deployment_config_name =
      st.deployment_config_name ∧
    (resourceDeploymentConfigCreate st none get).request.DeploymentConfigName =
      st.deployment_config_name ∧
    (get st.deployment_config_name = get' st.deployment_config_name →
      resourceDeploymentConfigCreate st none get = resourceDeploymentConfigCreate st none get') := by
  obtain ⟨s, hs⟩ := hflat
  refine ⟨?_, ?_, ?_, ?_, rfl, ?_⟩
  · simp [resourceDeploymentConfigCreate, resourceDeploymentConfigRead, hget, hs]
  · simp [resourceDeploymentConfigCreate, resourceDeploymentConfigRead, hget, hs]
  · simp [resourceDeploymentConfigCreate, resourceDeploymentConfigRead, hget, hs]
  · simp [resourceDeploymentConfigCreate, resourceDeploymentConfigRead, hget, hs, hname]
  · intro hgg
    simp only [resourceDeploymentConfigCreate, hgg]

/-- Witness for C4: creating `sampleState`'s configuration against a
remote that returns `sampleInfo` for the name "cfg-1". -/
theorem C4_create_adopts_name_witness :
    ((fun _ => Except.ok sampleInfo : String → Except FindErr DeploymentConfigInfo)
        sampleState.deployment_config_name = Except.ok sampleInfo ∧
      sampleInfo.DeploymentConfigName = some sampleState.deployment_config_name ∧
      (∃ s, flattenZonalConfig sampleInfo.ZonalConfig = Except.ok s)) ∧
    ((resourceDeploymentConfigCreate sampleState none (fun _ => Except.ok sampleInfo)).error =
        none ∧
      (resourceDeploymentConfigCreate sampleState none
          (fun _ => Except.ok sampleInfo)).state.id = sampleState.deployment_config_name) :=
  have h := C4_create_adopts_name sampleState sampleInfo
    (fun _ => Except.ok sampleInfo) (fun _ => Except.ok sampleInfo)
    rfl rfl ⟨none, rfl⟩
  ⟨⟨rfl, rfl, ⟨none, rfl⟩⟩, ⟨h.1, h.2.2.1⟩⟩

/-- C5: when the remote create call fails, create reports an error
wrapped with the configuration name and leaves the resource data
unchanged — in particular the identifier is never set, so no partial
object is tracked locally. -/
theorem C5_create_error_no_partial_state (st : ProviderState) (e : ApiError)
    (get : String → Except FindErr DeploymentConfigInfo) :
    (resourceDeploymentConfigCreate st (some e) get).state = st ∧
    (resourceDeploymentConfigCreate st (some e) get).state.id = st.id ∧
    (resourceDeploymentConfigCreate st (some e) get).error =
      some ("creating CodeDeploy Deployment Config (" ++ st.deployment_config_name ++ "): "
        ++ e.msg) :=
  ⟨rfl, rfl, rfl⟩

/-- C6: `findDeploymentConfigByName` translates exactly the designated
`DeploymentConfigDoesNotExistException` into the structured not-found
signal (carrying the original error), passes any other API error through
unmodified (the read caller later wraps it with an
operation-and-identifier-qualified message), and turns a successful call
with a nil output or nil payload into an empty-result error, not a
success. -/
theorem C6_find_error_translation (output : Option GetDeploymentConfigOutput)
    (msg : String) (info : DeploymentConfigInfo) (st : ProviderState) :
    findDeploymentConfigByName output (some { isDoesNotExist := true, msg := msg }) =
      .error (.notFound { isDoesNotExist := true, msg := msg }) ∧
    findDeploymentConfigByName output (some { isDoesNotExist := false, msg := msg }) =
      .error (.api { isDoesNotExist := false, msg := msg }) ∧
    findDeploymentConfigByName none none = .error .emptyResult ∧
    findDeploymentConfigByName (some { DeploymentConfigInfo := none }) none =
      .error .emptyResult ∧
    findDeploymentConfigByName (some { DeploymentConfigInfo := some info }) none =
      .ok info ∧
    (resourceDeploymentConfigRead true st
        (.error (.api { isDoesNotExist := false, msg := msg }))).error =
      some ("reading CodeDeploy Deployment Config (" ++ st.id ++ "): " ++ msg) :=
  ⟨rfl, rfl, rfl, rfl, rfl, rfl⟩

/-- C7: delete issues exactly one delete request, keyed by the resource
identifier; an error from that call (not-found included — there is no
special case) is surfaced as a fatal error qualified with the identifier,
and a successful delete reports no error. -/
theorem C7_delete_single_request (st : ProviderState) (e : ApiError) :
    (resourceDeploymentConfigDelete st (some e)).requests = [st.id] ∧
    (resourceDeploymentConfigDelete st none).requests = [st.id] ∧
    (resourceDeploymentConfigDelete st (some e)).error =
      some ("deleting CodeDeploy Deployment Config (" ++ st.id ++ "): " ++ e.msg) ∧
    (resourceDeploymentConfigDelete st none).error = none :=
  ⟨rfl, rfl, rfl, rfl⟩

/-- C8: a configuration whose `traffic_routing_config` block contains
both a `time_based_canary` and a `time_based_linear` element is rejected
by the schema's `ConflictsWith` validation (the two sub-blocks are
declared mutually exclusive), which the host framework runs before any
network call. -/
theorem C8_traffic_routing_mutual_exclusion (c : TRCRecord) (rest : List TRCRecord)
    (hc : c.time_based_canary.isEmpty = false) (hl : c.time_based_linear.isEmpty = false) :
    schemaValidateConflicts trafficRoutingConflicts (trcPresentPaths (c :: rest)) = false := by
  simp [schemaValidateConflicts, trafficRoutingConflicts, trcPresentPaths, hc, hl]

/-- Witness for C8: a block with both sub-blocks present is rejected. -/
theorem C8_traffic_routing_mutual_exclusion_witness :
    (({ type := ""
        time_based_canary := [{ interval := 1, percentage := 2 }]
        time_based_linear := [{ interval := 3, percentage := 4 }] } :
          TRCRecord)).time_based_canary.isEmpty = false ∧
    (({ type := ""
        time_based_canary := [{ interval := 1, percentage := 2 }]
        time_based_linear := [{ interval := 3, percentage := 4 }] } :
          TRCRecord)).time_based_linear.isEmpty = false ∧
    schemaValidateConflicts trafficRoutingConflicts
      (trcPresentPaths
        [{ type := ""
           time_based_canary := [{ interval := 1, percentage := 2 }]
           time_based_linear := [{ interval := 3, percentage := 4 }] }]) = false :=
  ⟨rfl, rfl,
   C8_traffic_routing_mutual_exclusion
     { type := ""
       time_based_canary := [{ interval := 1, percentage := 2 }]
       time_based_linear := [{ interval := 3, percentage := 4 }] } [] rfl rfl⟩

/-- C10: `flattenZonalConfig` is total on a present input only when both
`*int64` duration pointers are non-nil: it dereferences both without a
guard, so a present zonal config missing either field reaches the panic
branch; `flattenMinimumHealthHostsPerZone` instead guards its pointer and
returns the nil slice on absence without dereferencing. -/
theorem C10_flatten_zonal_deref_precondition (c c' : ZonalConfig)
    (hok : c.FirstZoneMonitorDurationInSeconds.isSome = true ∧
      c.MonitorDurationInSeconds.isSome = true)
    (hbad : c'.FirstZoneMonitorDurationInSeconds = none ∨
      c'.MonitorDurationInSeconds = none) :
    (∃ s, flattenZonalConfig (some c) = Except.ok s) ∧
    flattenZonalConfig (some c') = Except.error () ∧
    flattenMinimumHealthHostsPerZone none = none := by
  refine ⟨?_, ?_, rfl⟩
  · obtain ⟨h1, h2⟩ := hok
    obtain ⟨f, hf⟩ := Option.isSome_iff_exists.mp h1
    obtain ⟨m, hm⟩ := Option.isSome_iff_exists.mp h2
    refine ⟨some [{ first_zone_monitor_duration_in_seconds := f
                    minimum_healthy_hosts_per_zone :=
                      flattenMinimumHealthHostsPerZone c.MinimumHealthyHostsPerZone
                    monitor_duration_in_seconds := m }], ?_⟩
    simp [flattenZonalConfig, hf, hm]
  · obtain ⟨cf, cp, cm⟩ := c'
    rcases hbad with h | h
    · cases cm <;> simp_all [flattenZonalConfig]
    · cases cf <;> simp_all [flattenZonalConfig]

/-- Witness for C10: a zonal config with both durations present flattens
without panicking; one with a nil first-zone duration panics. -/
theorem C10_flatten_zonal_deref_precondition_witness :
    ((({ FirstZoneMonitorDurationInSeconds := some 60
         MinimumHealthyHostsPerZone := none
         MonitorDurationInSeconds := some 30 } : ZonalConfig)
          ).FirstZoneMonitorDurationInSeconds.isSome = true ∧
      (({ FirstZoneMonitorDurationInSeconds := some 60
          MinimumHealthyHostsPerZone := none
          MonitorDurationInSeconds := some 30 } : ZonalConfig)
           ).MonitorDurationInSeconds.isSome = true) ∧
    (∃ s, flattenZonalConfig (some
        { FirstZoneMonitorDurationInSeconds := some 60
          MinimumHealthyHostsPerZone := none
          MonitorDurationInSeconds := some 30 }) = Except.ok s) ∧
    flattenZonalConfig (some
        { FirstZoneMonitorDurationInSeconds := none
          MinimumHealthyHostsPerZone := none
          MonitorDurationInSeconds := some 30 }) = Except.error () ∧
    flattenMinimumHealthHostsPerZone none = none :=
  ⟨⟨rfl, rfl⟩,
   C10_flatten_zonal_deref_precondition
     { FirstZoneMonitorDurationInSeconds := some 60
       MinimumHealthyHostsPerZone := none
       MonitorDurationInSeconds := some 30 }
     { FirstZoneMonitorDurationInSeconds := none
       MinimumHealthyHostsPerZone := none
       MonitorDurationInSeconds := some 30 }
     ⟨rfl, rfl⟩ (Or.inl rfl)⟩

end DeployConfig
